import Mathlib

/-!
Verification of the climate-index computation engine of
`src/data/scripts/calculate_metrics.py` (repository `gabirusky/clima.pinda`).

The Python source is shallowly embedded: pandas `DataFrame` rows become a
`List Row`, a possibly-missing numeric cell (`NaN`) becomes `Option ℚ`,
and pandas/NumPy comparison semantics against `NaN` (always `False`) are
made explicit in the small helper functions below.  Exact rational
arithmetic stands in for IEEE floats; `none` stands in for `NaN` results.
-/

set_option maxRecDepth 8000

namespace ClimaPinda

/-- A row of the cleaned daily dataset `pindamonhangaba_clean.csv`:
the columns used by `calculate_metrics.py`.  Missing numeric cells
(`NaN` in pandas) are `none`. -/
structure Row where
  year : ℤ
  day_of_year : ℤ
  temp_max : Option ℚ
  temp_min : Option ℚ
  temp_mean : Option ℚ
  precipitation : Option ℚ
deriving DecidableEq

/-- Pandas semantics of `v > t` where either side may be `NaN`:
the comparison is `False` whenever a side is missing. -/
def nanGT (v t : Option ℚ) : Bool :=
  match v, t with
  | some a, some b => decide (b < a)
  | _, _ => false

/-- Pandas semantics of `v < c` against a scalar: `False` when `v` is `NaN`. -/
def nanLT (v : Option ℚ) (c : ℚ) : Bool :=
  match v with
  | some a => decide (a < c)
  | none => false

/-- Pandas semantics of `v >= c` against a scalar: `False` when `v` is `NaN`. -/
def nanGE (v : Option ℚ) (c : ℚ) : Bool :=
  match v with
  | some a => decide (c ≤ a)
  | none => false

/-- Round half-to-even to an integer (the rounding used by Python's
`round` and NumPy's `round` on exact values). -/
def roundHalfEven (x : ℚ) : ℤ :=
  let f := x.floor
  let r := x - (f : ℚ)
  if r < 1 / 2 then f
  else if 1 / 2 < r then f + 1
  else if f % 2 = 0 then f else f + 1

/-- Python's `round(x, d)` / NumPy's `np.round(x, d)` on exact values:
round half-to-even at `d` decimal places. -/
def roundTo (x : ℚ) (d : ℕ) : ℚ :=
  (roundHalfEven (x * (10 : ℚ) ^ d) : ℚ) / (10 : ℚ) ^ d

/-- Insert into a sorted list, keeping it ascending. -/
def insertAsc (x : ℚ) : List ℚ → List ℚ
  | [] => [x]
  | y :: t => if x ≤ y then x :: y :: t else y :: insertAsc x t

/-- Sort ascending (the sort performed inside `np.percentile`). -/
def sortAsc (l : List ℚ) : List ℚ :=
  l.foldr insertAsc []

/-- `np.percentile(pool, p)` with the default linear-interpolation method:
sort ascending, take `h = p/100 * (n-1)`, and linearly interpolate between
the neighbouring order statistics.  Only called on nonempty pools. -/
def percentileLinear (pool : List ℚ) (p : ℚ) : ℚ :=
  let sorted := sortAsc pool
  let n := sorted.length
  let h : ℚ := p / 100 * ((n : ℚ) - 1)
  let i : ℕ := h.floor.toNat
  let lo := sorted.getD i 0
  let hi := sorted.getD (i + 1) lo
  lo + (h - (i : ℚ)) * (hi - lo)

/-- `_max_consecutive`'s scan loop: carries the running maximum and the
length of the current `True`-run, exactly as the Python `for` loop does. -/
def maxConsecutiveLoop : List Bool → ℕ → ℕ → ℕ
  | [], maxRun, _ => maxRun
  | v :: t, maxRun, current =>
    if v then maxConsecutiveLoop t (max maxRun (current + 1)) (current + 1)
    else maxConsecutiveLoop t maxRun 0

/-- `_max_consecutive(flags)`: length of the longest contiguous `True`-run
(with the early return `0` when no flag is set). -/
def max_consecutive (flags : List Bool) : ℕ :=
  if flags.any id then maxConsecutiveLoop flags 0 0 else 0

/-- Auxiliary bound used for termination of the spell scan. -/
theorem dropWhile_length_le {α : Type} (p : α → Bool) (l : List α) :
    (l.dropWhile p).length ≤ l.length := by
  induction l with
  | nil => simp [List.dropWhile]
  | cons a t ih =>
    simp only [List.dropWhile]
    cases p a
    · simp
    · simp only [List.length_cons]
      omega

/-- `_count_days_in_spells(flags, min_duration)`: total days inside maximal
`True`-runs of length at least `min_duration`.  The Python two-pointer scan
(`j` runs to the end of the current `True`-run, then `i` jumps to `j`)
is the `takeWhile` / `dropWhile` decomposition below. -/
def count_days_in_spells (flags : List Bool) (min_duration : ℕ) : ℕ :=
  match flags with
  | [] => 0
  | false :: t => count_days_in_spells t min_duration
  | true :: t =>
    let run_len := 1 + (t.takeWhile (· == true)).length
    (if min_duration ≤ run_len then run_len else 0) +
      count_days_in_spells (t.dropWhile (· == true)) min_duration
termination_by flags.length
decreasing_by
  · simp only [List.length_cons]
    omega
  · have h := dropWhile_length_le (fun x : Bool => x == true) t
    simp only [List.dropWhile, beq_self_eq_true, List.length_cons] at *
    omega

/-- The predicate of the pandas filter
`df[(df["year"] >= baseline_start) & (df["year"] <= baseline_end)]`. -/
def yearInBaseline (baseline_start baseline_end : ℤ) (r : Row) : Bool :=
  decide (baseline_start ≤ r.year) && decide (r.year ≤ baseline_end)

/-- The `±2`-day window of day-of-years around `doy`, exactly as computed by
`[(doy - window + k - 1) % 366 + 1 for k in range(2 * window + 1)]` with
`window = 2` (Python `%` on a positive modulus, i.e. `Int.emod`). -/
def windowDoys (doy : ℤ) : List ℤ :=
  (List.range 5).map (fun k : ℕ => (doy - 2 + (k : ℤ) - 1) % 366 + 1)

/-- `build_calendar_day_percentile(df, column, baseline_start, baseline_end,
percentile)` evaluated at one day-of-year `doy` (the Python function fills a
dict for `doy in range(1, 367)`; the per-day value is this function).
Restricts to the baseline years, drops rows where `column` is missing, pools
the values whose `day_of_year` lies in the 5-day window, and takes the
percentile of the pool when it has at least 10 values; otherwise falls back
to the exact-day pool, and to `none` (`np.nan`) when that is empty. -/
def build_calendar_day_percentile (df : List Row) (column : Row → Option ℚ)
    (baseline_start baseline_end : ℤ) (percentile : ℚ) (doy : ℤ) : Option ℚ :=
  let baseline := (df.filter (yearInBaseline baseline_start baseline_end)).filter
    (fun r => (column r).isSome)
  let pool := (baseline.filter (fun r => decide (r.day_of_year ∈ windowDoys doy))).filterMap column
  if 10 ≤ pool.length then some (percentileLinear pool percentile)
  else
    let pool_exact := (baseline.filter (fun r => decide (r.day_of_year = doy))).filterMap column
    if 0 < pool_exact.length then some (percentileLinear pool_exact percentile) else none

/-- The boolean day-flags of `calculate_wsdi` / the day predicate of
`calculate_tx90p`: `row["temp_max"] > p90_tmax.get(int(row["day_of_year"]), np.nan)`
with pandas `NaN` semantics (missing value or missing threshold compares `False`). -/
def exceedsFlag (column : Row → Option ℚ) (thresholds : ℤ → Option ℚ) (r : Row) : Bool :=
  nanGT (column r) (thresholds r.day_of_year)

/-- `calculate_wsdi(year_df, p90_tmax, min_duration)`: the warm-spell duration
index.  The `fillna(False)` of the source is already implicit in `nanGT`. -/
def calculate_wsdi (year_df : List Row) (p90_tmax : ℤ → Option ℚ)
    (min_duration : ℕ) : ℕ :=
  count_days_in_spells (year_df.map (exceedsFlag Row.temp_max p90_tmax)) min_duration

/-- `calculate_tx90p(year_df, p90_tmax)`: percentage of days whose `temp_max`
strictly exceeds the calendar-day threshold, over `len(year_df)` days,
rounded to two decimals; `np.nan` when the year has no rows at all. -/
def calculate_tx90p (year_df : List Row) (p90_tmax : ℤ → Option ℚ) : Option ℚ :=
  let total := year_df.length
  if total = 0 then none
  else
    let above := (year_df.filter (exceedsFlag Row.temp_max p90_tmax)).length
    some (roundTo ((above : ℚ) / (total : ℚ) * 100) 2)

/-- `calculate_tn90p(year_df, p90_tmin)`: same as `calculate_tx90p` but over
`temp_min`. -/
def calculate_tn90p (year_df : List Row) (p90_tmin : ℤ → Option ℚ) : Option ℚ :=
  let total := year_df.length
  if total = 0 then none
  else
    let above := (year_df.filter (exceedsFlag Row.temp_min p90_tmin)).length
    some (roundTo ((above : ℚ) / (total : ℚ) * 100) 2)

/-- The dry-day flag of `calculate_cdd`: `precip < 1.0` (pandas: `False` on `NaN`). -/
def dryFlag (p : Option ℚ) : Bool :=
  nanLT p 1

/-- The wet-day flag of `calculate_cwd`: `precip >= 1.0` (pandas: `False` on `NaN`). -/
def wetFlag (p : Option ℚ) : Bool :=
  nanGE p 1

/-- `calculate_cdd(precip_series)`: longest run of consecutive dry days. -/
def calculate_cdd (precip_series : List (Option ℚ)) : ℕ :=
  max_consecutive (precip_series.map dryFlag)

/-- `calculate_cwd(precip_series)`: longest run of consecutive wet days. -/
def calculate_cwd (precip_series : List (Option ℚ)) : ℕ :=
  max_consecutive (precip_series.map wetFlag)

/-- Result record of `mann_kendall_trend` (Python dict with keys
`tau`, `p_value`, `trend_direction`); `none` models `np.nan`. -/
structure MKResult where
  tau : Option ℚ
  p_value : Option ℚ
  trend_direction : String
deriving DecidableEq

/-- `mann_kendall_trend(series)`.  `scipy.stats.kendalltau` is an external
collaborator, passed in as an argument mapping the time index and the valid
values to `(tau, p_value)` where `none` models a `NaN` result; the guard for
fewer than 3 valid points and the sign-to-direction mapping are the
repository's own code, embedded here verbatim. -/
def mann_kendall_trend (kendalltau : List ℚ → List ℚ → Option ℚ × Option ℚ)
    (series : List (Option ℚ)) : MKResult :=
  let x := series.filterMap id
  let n := x.length
  if n < 3 then ⟨none, none, "insufficient_data"⟩
  else
    let time_idx : List ℚ := (List.range n).map (fun i : ℕ => (i : ℚ))
    let tp := kendalltau time_idx x
    let direction :=
      match tp.1 with
      | some tau => if 0 < tau then "increasing" else if tau < 0 then "decreasing" else "no_trend"
      | none => "no_trend"
    ⟨tp.1.map (fun t => roundTo t 4), tp.2.map (fun t => roundTo t 4), direction⟩

/-- Result record of `linear_regression_trend`; `none` models `np.nan`. -/
structure LRResult where
  slope : Option ℚ
  intercept : Option ℚ
  r_squared : Option ℚ
  p_value : Option ℚ
  slope_per_decade : Option ℚ
deriving DecidableEq

/-- The raw output of the external `scipy.stats.linregress` collaborator. -/
structure LinregressRaw where
  slope : ℚ
  intercept : ℚ
  rvalue : ℚ
  pvalue : ℚ

/-- `linear_regression_trend(years, values)`: mask out pairs whose value is
missing (`values.notna()` applied to both columns), return all-`NaN` for
fewer than 3 points, otherwise report the (rounded) regression fields.
`scipy.stats.linregress` is an external collaborator passed as an argument. -/
def linear_regression_trend (linregress : List ℚ → List ℚ → LinregressRaw)
    (years : List ℚ) (values : List (Option ℚ)) : LRResult :=
  let pairs := (years.zip values).filterMap (fun yv => yv.2.map (fun v => (yv.1, v)))
  let x := pairs.map (fun q => q.1)
  let y := pairs.map (fun q => q.2)
  if x.length < 3 then ⟨none, none, none, none, none⟩
  else
    let result := linregress x y
    ⟨some (roundTo result.slope 4), some (roundTo result.intercept 4),
      some (roundTo (result.rvalue ^ (2 : ℕ)) 4), some (roundTo result.pvalue 4),
      some (roundTo (result.slope * 10) 4)⟩

/-- One annual row as used by the anomaly and decadal steps of `main`:
the `year` together with the value of one numeric annual column
(`none` models `NaN`; pandas aggregations act columnwise, so one column
suffices to embed the aggregation of any numeric column). -/
abbrev AnnualCell := ℤ × Option ℚ

/-- The reference mean of `main` step 4:
`annual.loc[annual["year"] <= 1980, "temp_mean_annual"].mean()`.
Pandas `mean` skips `NaN` cells and is itself `NaN` when no cell remains. -/
def anomaly_baseline_mean (annual : List AnnualCell) : Option ℚ :=
  let ref := (annual.filter (fun r => decide (r.1 ≤ 1980))).filterMap (fun r => r.2)
  if ref.length = 0 then none else some (ref.sum / (ref.length : ℚ))

/-- The anomaly column of `main` step 4:
`(annual["temp_mean_annual"] - baseline_mean).round(2)`.
A `NaN` on either side of the subtraction propagates to `NaN`. -/
def anomaly_column (annual : List AnnualCell) : List (Option ℚ) :=
  annual.map (fun r =>
    match anomaly_baseline_mean annual, r.2 with
    | some m, some t => some (roundTo (t - m) 2)
    | _, _ => none)

/-- The decade assignment of `main` step 6: `annual["year"] // 10 * 10`
(Python floor division; `Int.fdiv` is floor division). -/
def decade_of (y : ℤ) : ℤ :=
  y.fdiv 10 * 10

/-- The decadal aggregation of `main` step 6 for one numeric column and one
decade `d`: `annual.groupby("decade")[numeric_cols].mean().round(2)`.
Pandas group `mean` skips `NaN` cells and is `NaN` when the group has no
non-missing cell. -/
def decadal_mean (annual : List AnnualCell) (d : ℤ) : Option ℚ :=
  let vals := (annual.filter (fun r => decide (decade_of r.1 = d))).filterMap (fun r => r.2)
  if vals.length = 0 then none else some (roundTo (vals.sum / (vals.length : ℚ)) 2)

/-- The hot-day filter of `main`'s seasonal analysis:
`ydf[ydf["temp_max"] >= SU30_THRESHOLD]`, keeping the `day_of_year` column. -/
def hot_days_doys (year_df : List Row) : List ℤ :=
  (year_df.filter (fun r => nanGE r.temp_max 30)).map (fun r => r.day_of_year)

/-- The seasonal block of `main`: `(first_hot_day, last_hot_day,
hot_season_length)`, where the length is `last - first` when a hot day
exists and the first/last are `None` with length `0` otherwise. -/
def hot_season (year_df : List Row) : Option ℤ × Option ℤ × ℤ :=
  match (hot_days_doys year_df).min?, (hot_days_doys year_df).max? with
  | some f, some l => (some f, some l, l - f)
  | _, _ => (none, none, 0)

/-- The numeric columns of the annual table built by `main`: every column
of the step-3 records except the `year` key, plus the `anomaly` column
appended in step 4 (the later `decade` column is the grouping key).
`first_hot_day` and `last_hot_day` are numeric (ints, or `NaN` for a year
with no hot day). -/
def annual_numeric_columns : List String :=
  ["su25", "su30", "tr20", "dtr_mean", "temp_max_mean", "temp_min_mean",
    "temp_mean_annual", "precip_total", "precip_days", "wsdi_days", "tx90p",
    "tn90p", "cdd", "cwd", "gdd", "p95_days", "first_hot_day", "last_hot_day",
    "hot_season_length", "anomaly"]

/-- The hand-listed `numeric_cols` of `main` step 6: the only columns the
decadal aggregation `annual.groupby("decade")[numeric_cols].mean()` averages. -/
def numeric_cols : List String :=
  ["su25", "su30", "tr20", "dtr_mean", "temp_max_mean", "temp_min_mean",
    "temp_mean_annual", "precip_total", "precip_days", "wsdi_days", "tx90p",
    "tn90p", "cdd", "cwd", "gdd", "p95_days", "hot_season_length", "anomaly"]

/-! Specification-side definitions, written from the wording of the claims
(maximal runs, circular calendar window, and the claims' own formulas for
the exceedance rate and the anomaly), to be compared with the embedded
source functions above. -/

/-- Lengths of the maximal `True`-runs of a boolean sequence, in order:
the first run is the leading block of `True`s, the rest are the runs of
what follows it. -/
def trueRunLengths (flags : List Bool) : List ℕ :=
  match flags with
  | [] => []
  | false :: t => trueRunLengths t
  | true :: t => (1 + (t.takeWhile (· == true)).length) :: trueRunLengths (t.dropWhile (· == true))
termination_by flags.length
decreasing_by
  · simp only [List.length_cons]
    omega
  · have h := dropWhile_length_le (fun x : Bool => x == true) t
    simp only [List.dropWhile, beq_self_eq_true, List.length_cons] at *
    omega

/-- Circular distance between two day-of-year values on a 366-day wheel. -/
def circularDist (a b : ℤ) : ℤ :=
  min ((a - b) % 366) ((b - a) % 366)

/-- The claims' description of the calendar-day percentile threshold:
drop missing values, pool baseline-period observations whose day-of-year
lies within circular distance 2 of `doy`, take the percentile of the pool
when it has at least 10 values, fall back to the exact-day pool, and
report `none` when even that pool is empty. -/
def calendar_threshold_spec (df : List Row) (column : Row → Option ℚ)
    (baseline_start baseline_end : ℤ) (percentile : ℚ) (doy : ℤ) : Option ℚ :=
  let baseline := (df.filter (yearInBaseline baseline_start baseline_end)).filter
    (fun r => (column r).isSome)
  let pool := (baseline.filter (fun r =>
    decide (1 ≤ r.day_of_year ∧ r.day_of_year ≤ 366 ∧ circularDist r.day_of_year doy ≤ 2))).filterMap column
  if 10 ≤ pool.length then some (percentileLinear pool percentile)
  else
    let pool_exact := (baseline.filter (fun r => decide (r.day_of_year = doy))).filterMap column
    if 0 < pool_exact.length then some (percentileLinear pool_exact percentile) else none

/-- Claim C1's formula for the exceedance rate: 100 times the exceeding-day
count divided by the count of non-missing days, no rounding, undefined when
the year has zero non-missing days. -/
def tx90p_claim (year_df : List Row) (p90_tmax : ℤ → Option ℚ) : Option ℚ :=
  let valid := year_df.filter (fun r => r.temp_max.isSome)
  if valid.length = 0 then none
  else some (100 * ((year_df.filter (exceedsFlag Row.temp_max p90_tmax)).length : ℚ) /
    (valid.length : ℚ))

/-- Claim C7's formula for the anomaly column: annual mean minus the
reference mean, with no rounding. -/
def anomaly_column_claim (annual : List AnnualCell) : List (Option ℚ) :=
  annual.map (fun r =>
    match anomaly_baseline_mean annual, r.2 with
    | some m, some t => some (t - m)
    | _, _ => none)

/-! Helper lemmas. -/

/-- The spell counter totals exactly the maximal `True`-run lengths that
meet the duration threshold. -/
theorem count_days_in_spells_eq_runs (flags : List Bool) (m : ℕ) :
    count_days_in_spells flags m =
      ((trueRunLengths flags).filter (fun L => decide (m ≤ L))).sum := by
  induction flags, m using count_days_in_spells.induct with
  | case1 m => simp [count_days_in_spells, trueRunLengths]
  | case2 m t ih =>
    simp only [count_days_in_spells, trueRunLengths]
    exact ih
  | case3 m t ih =>
    simp only [count_days_in_spells, trueRunLengths, List.filter_cons]
    simp only [beq_true] at ih ⊢
    by_cases h : m ≤ 1 + (t.takeWhile (fun x => x)).length
    · simp [h, ih]
    · simp [h, ih]

/-- Every maximal `True`-run has length at least 1. -/
theorem trueRunLengths_pos (flags : List Bool) :
    ∀ L ∈ trueRunLengths flags, 1 ≤ L := by
  induction flags using trueRunLengths.induct with
  | case1 => simp [trueRunLengths]
  | case2 t ih =>
    simp only [trueRunLengths]
    exact ih
  | case3 t ih =>
    simp only [trueRunLengths, List.mem_cons]
    rintro L (rfl | hL)
    · omega
    · exact ih L hL

/-- The maximal `True`-run lengths total the number of `True` flags. -/
theorem trueRunLengths_sum (flags : List Bool) :
    (trueRunLengths flags).sum = flags.count true := by
  induction flags using trueRunLengths.induct with
  | case1 => simp [trueRunLengths]
  | case2 t ih =>
    simp only [trueRunLengths]
    rw [ih]
    simp [List.count_cons]
  | case3 t ih =>
    simp only [trueRunLengths, List.sum_cons]
    rw [ih]
    have hsplit : t.count true =
        (t.takeWhile (· == true)).count true + (t.dropWhile (· == true)).count true := by
      conv_lhs => rw [← List.takeWhile_append_dropWhile (p := (· == true)) (l := t)]
      rw [List.count_append]
    have htake : (t.takeWhile (· == true)).count true = (t.takeWhile (· == true)).length := by
      rw [List.count_eq_length]
      intro b hb
      have := List.mem_takeWhile_imp hb
      simpa using this.symm
    rw [List.count_cons]
    simp only [beq_self_eq_true, if_pos]
    omega

/-- Semantics of the exceedance day-flag: it is set exactly when the value
and the threshold are both present and the value strictly exceeds the
threshold (so a missing value or an undefined threshold never counts). -/
theorem exceedsFlag_iff (column : Row → Option ℚ) (thresholds : ℤ → Option ℚ) (r : Row) :
    exceedsFlag column thresholds r = true ↔
      ∃ v t, column r = some v ∧ thresholds r.day_of_year = some t ∧ t < v := by
  unfold exceedsFlag nanGT
  cases hc : column r with
  | none => simp
  | some v =>
    cases ht : thresholds r.day_of_year with
    | none => simp
    | some t => simp

/-- A run of `n` consecutive hot days (one row per day, `temp_max = 40`). -/
def hotRun (n : ℕ) : List Row :=
  (List.range n).map (fun i => ⟨2000, (i : ℤ) + 1, some 40, none, none, none⟩)

/-! Claim theorems. -/

/-- Claim C4: the warm-spell duration index equals the total length of the
maximal exceedance runs of at least `6` consecutive days, where a day with a
missing value or an undefined threshold is not exceeding (the flag
biconditional); consequently a maximal 5-day run contributes 0, a 6-day run
contributes 6 and a 7-day run contributes 7. -/
theorem C4_wsdi_qualifying_runs :
    (∀ (year_df : List Row) (p90_tmax : ℤ → Option ℚ),
      calculate_wsdi year_df p90_tmax 6 =
        ((trueRunLengths (year_df.map (exceedsFlag Row.temp_max p90_tmax))).filter
          (fun L => decide (6 ≤ L))).sum) ∧
    (∀ (column : Row → Option ℚ) (thresholds : ℤ → Option ℚ) (r : Row),
      exceedsFlag column thresholds r = true ↔
        ∃ v t, column r = some v ∧ thresholds r.day_of_year = some t ∧ t < v) ∧
    calculate_wsdi (hotRun 5) (fun _ => some 30) 6 = 0 ∧
    calculate_wsdi (hotRun 6) (fun _ => some 30) 6 = 6 ∧
    calculate_wsdi (hotRun 7) (fun _ => some 30) 6 = 7 := by
  refine ⟨fun year_df p90_tmax => count_days_in_spells_eq_runs _ 6,
    exceedsFlag_iff, ?_, ?_, ?_⟩ <;> with_unfolding_all decide

/-- Claim C9: with `min_duration = 1` the spell counter counts exactly the
`True` flags. -/
theorem C9_min_length_one_counts_true (flags : List Bool) :
    count_days_in_spells flags 1 = flags.count true := by
  have h : (trueRunLengths flags).filter (fun L => decide (1 ≤ L)) = trueRunLengths flags :=
    List.filter_eq_self.mpr (fun L hL => by simpa using trueRunLengths_pos flags L hL)
  rw [count_days_in_spells_eq_runs, h, trueRunLengths_sum]

/-- Claim C5 (counterexample): a day with missing precipitation is classified
as neither dry nor wet, so the two classifications are not complementary on
every day of every series. -/
theorem C5_counterexample :
    ¬ ((dryFlag none = true ∨ wetFlag none = true) ∧
        ¬ (dryFlag none = true ∧ wetFlag none = true)) := by
  with_unfolding_all decide

/-- Claim C5 (amended): on every day with a non-missing precipitation value
the dry (`< 1.0`) and wet (`≥ 1.0`) classifications are complementary and
disjoint, and exactly `1.0` mm is wet; a day with missing precipitation is
classified as neither. -/
theorem C5_dry_wet_partition :
    (∀ p : ℚ, dryFlag (some p) = true ↔ ¬ wetFlag (some p) = true) ∧
    dryFlag (some 1) = false ∧ wetFlag (some 1) = true ∧
    dryFlag none = false ∧ wetFlag none = false ∧
    calculate_cdd [some 0, some 1, some 0] = 1 ∧
    calculate_cwd [some 1, some 1, some 1] = 3 := by
  refine ⟨fun p => ?_, ?_, ?_, ?_, ?_, ?_, ?_⟩
  · unfold dryFlag wetFlag nanLT nanGE
    simp
  all_goals with_unfolding_all decide

/-- Claim C2: the baseline thresholds are a function of the rows whose year
lies in the baseline window only — two datasets agreeing there produce
identical per-day thresholds, whatever the other rows contain. -/
theorem C2_baseline_invariance (df1 df2 : List Row) (column : Row → Option ℚ)
    (baseline_start baseline_end : ℤ) (percentile : ℚ) (doy : ℤ)
    (h : df1.filter (yearInBaseline baseline_start baseline_end) =
         df2.filter (yearInBaseline baseline_start baseline_end)) :
    build_calendar_day_percentile df1 column baseline_start baseline_end percentile doy =
      build_calendar_day_percentile df2 column baseline_start baseline_end percentile doy := by
  simp only [build_calendar_day_percentile, h]

/-- Witness for C2: inflating a non-baseline year from `50` to `9999`
degrees leaves the day-1 threshold unchanged. -/
theorem C2_witness :
    [(⟨1970, 1, some 20, none, none, none⟩ : Row), ⟨2000, 1, some 50, none, none, none⟩].filter
        (yearInBaseline 1961 1990) =
      [(⟨1970, 1, some 20, none, none, none⟩ : Row), ⟨2000, 1, some 9999, none, none, none⟩].filter
        (yearInBaseline 1961 1990) ∧
    build_calendar_day_percentile
        [⟨1970, 1, some 20, none, none, none⟩, ⟨2000, 1, some 50, none, none, none⟩]
        Row.temp_max 1961 1990 90 1 =
      build_calendar_day_percentile
        [⟨1970, 1, some 20, none, none, none⟩, ⟨2000, 1, some 9999, none, none, none⟩]
        Row.temp_max 1961 1990 90 1 :=
  ⟨by with_unfolding_all decide,
   C2_baseline_invariance _ _ Row.temp_max 1961 1990 90 1 (by with_unfolding_all decide)⟩

/-- Claim C1 (counterexample): on a year with one missing day, one exceeding
day and one valid non-exceeding day, the code reports `33.33` (exceeding
days over all three rows, rounded) while the claim's formula gives `50`
(over the two non-missing days, unrounded). -/
theorem C1_counterexample :
    calculate_tx90p
        [⟨2000, 1, none, none, none, none⟩, ⟨2000, 2, some 10, none, none, none⟩,
          ⟨2000, 3, some 1, none, none, none⟩] (fun _ => some 5) ≠
      tx90p_claim
        [⟨2000, 1, none, none, none, none⟩, ⟨2000, 2, some 10, none, none, none⟩,
          ⟨2000, 3, some 1, none, none, none⟩] (fun _ => some 5) := by
  with_unfolding_all decide

/-- Claim C1 (amended): the exceedance rates equal 100 times the count of
days whose value strictly exceeds that day's threshold (missing values and
undefined thresholds never exceed, per the flag biconditional), divided by
the count of ALL days of the year (missing included), rounded half-even to
two decimals, and are undefined exactly when the year has zero rows. -/
theorem C1_percentile_exceedance_rate :
    (∀ (year_df : List Row) (p90_tmax : ℤ → Option ℚ),
      calculate_tx90p year_df p90_tmax =
        if year_df.length = 0 then none
        else some (roundTo
          (((year_df.filter (exceedsFlag Row.temp_max p90_tmax)).length : ℚ) /
            (year_df.length : ℚ) * 100) 2)) ∧
    (∀ (year_df : List Row) (p90_tmin : ℤ → Option ℚ),
      calculate_tn90p year_df p90_tmin =
        if year_df.length = 0 then none
        else some (roundTo
          (((year_df.filter (exceedsFlag Row.temp_min p90_tmin)).length : ℚ) /
            (year_df.length : ℚ) * 100) 2)) ∧
    (∀ (column : Row → Option ℚ) (thresholds : ℤ → Option ℚ) (r : Row),
      exceedsFlag column thresholds r = true ↔
        ∃ v t, column r = some v ∧ thresholds r.day_of_year = some t ∧ t < v) :=
  ⟨fun _ _ => rfl, fun _ _ => rfl, exceedsFlag_iff⟩

/-- The 5-day window list `[(doy - 2 + k - 1) % 366 + 1 for k in range(5)]`
contains exactly the in-range day-of-years at circular distance at most 2
from `doy` (wrapping across the 366/1 boundary). -/
theorem mem_windowDoys_iff (doy d : ℤ) (h1 : 1 ≤ doy) (h2 : doy ≤ 366) :
    d ∈ windowDoys doy ↔ 1 ≤ d ∧ d ≤ 366 ∧ circularDist d doy ≤ 2 := by
  rw [windowDoys, circularDist]
  constructor
  · intro hmem
    obtain ⟨k, hk, hkd⟩ := List.mem_map.mp hmem
    have hklt := List.mem_range.mp hk
    subst hkd
    have hk5 : k = 0 ∨ k = 1 ∨ k = 2 ∨ k = 3 ∨ k = 4 := by omega
    rcases hk5 with rfl | rfl | rfl | rfl | rfl <;> (push_cast; omega)
  · intro hd
    have h5 : (d - doy) % 366 = 0 ∨ (d - doy) % 366 = 1 ∨ (d - doy) % 366 = 2 ∨
        (d - doy) % 366 = 364 ∨ (d - doy) % 366 = 365 := by omega
    apply List.mem_map.mpr
    rcases h5 with h | h | h | h | h
    · exact ⟨2, List.mem_range.mpr (by omega), by push_cast; omega⟩
    · exact ⟨3, List.mem_range.mpr (by omega), by push_cast; omega⟩
    · exact ⟨4, List.mem_range.mpr (by omega), by push_cast; omega⟩
    · exact ⟨0, List.mem_range.mpr (by omega), by push_cast; omega⟩
    · exact ⟨1, List.mem_range.mpr (by omega), by push_cast; omega⟩

/-- Claim C3: for an in-range day-of-year the built threshold agrees with
the spec's description (missing values dropped, baseline pool at circular
distance at most 2, percentile when the pool has at least 10 values,
exact-day fallback, `none` when even that is empty); and an entirely empty
baseline yields an undefined threshold. -/
theorem C3_window_pooling (df : List Row) (column : Row → Option ℚ)
    (baseline_start baseline_end : ℤ) (percentile : ℚ) (doy : ℤ)
    (h1 : 1 ≤ doy) (h2 : doy ≤ 366) :
    build_calendar_day_percentile df column baseline_start baseline_end percentile doy =
      calendar_threshold_spec df column baseline_start baseline_end percentile doy ∧
    (df.filter (yearInBaseline baseline_start baseline_end) = [] →
      build_calendar_day_percentile df column baseline_start baseline_end percentile doy = none) := by
  constructor
  · have hfilter : ((df.filter (yearInBaseline baseline_start baseline_end)).filter
        (fun r => (column r).isSome)).filter
          (fun r => decide (r.day_of_year ∈ windowDoys doy)) =
        ((df.filter (yearInBaseline baseline_start baseline_end)).filter
          (fun r => (column r).isSome)).filter (fun r =>
            decide (1 ≤ r.day_of_year ∧ r.day_of_year ≤ 366 ∧
              circularDist r.day_of_year doy ≤ 2)) := by
      apply List.filter_congr
      intro r _
      rw [decide_eq_decide]
      exact mem_windowDoys_iff doy r.day_of_year h1 h2
    simp only [build_calendar_day_percentile, calendar_threshold_spec, hfilter]
  · intro h
    simp [build_calendar_day_percentile, h]

/-- Witness for C3: the agreement and the empty-baseline case evaluated on
one-row datasets at day-of-year 1. -/
theorem C3_witness :
    ((1 : ℤ) ≤ 1 ∧ (1 : ℤ) ≤ 366) ∧
    build_calendar_day_percentile [⟨1961, 1, some 20, none, none, none⟩]
        Row.temp_max 1961 1990 90 1 =
      calendar_threshold_spec [⟨1961, 1, some 20, none, none, none⟩]
        Row.temp_max 1961 1990 90 1 ∧
    build_calendar_day_percentile [⟨2000, 1, some 20, none, none, none⟩]
        Row.temp_max 1961 1990 90 1 = none :=
  ⟨⟨by decide, by decide⟩,
   (C3_window_pooling [⟨1961, 1, some 20, none, none, none⟩] Row.temp_max 1961 1990 90 1
      (by decide) (by decide)).1,
   (C3_window_pooling [⟨2000, 1, some 20, none, none, none⟩] Row.temp_max 1961 1990 90 1
      (by decide) (by decide)).2 (by with_unfolding_all decide)⟩

/-- Claim C6: both trend estimators report an explicit insufficient-data
state (no numeric fields) for fewer than 3 valid points and on empty input,
and with at least 3 valid points the Mann-Kendall direction follows the
sign of the coefficient returned by the external `kendalltau`. -/
theorem C6_trend_guards :
    (∀ (kendalltau : List ℚ → List ℚ → Option ℚ × Option ℚ) (series : List (Option ℚ)),
      (series.filterMap id).length < 3 →
      mann_kendall_trend kendalltau series = ⟨none, none, "insufficient_data"⟩) ∧
    (∀ kendalltau, mann_kendall_trend kendalltau [] = ⟨none, none, "insufficient_data"⟩) ∧
    (∀ (linregress : List ℚ → List ℚ → LinregressRaw) (years : List ℚ)
        (values : List (Option ℚ)),
      ((years.zip values).filterMap (fun yv => yv.2.map (fun v => (yv.1, v)))).length < 3 →
      linear_regression_trend linregress years values = ⟨none, none, none, none, none⟩) ∧
    (∀ linregress, linear_regression_trend linregress [] [] = ⟨none, none, none, none, none⟩) ∧
    (∀ (kendalltau : List ℚ → List ℚ → Option ℚ × Option ℚ) (series : List (Option ℚ))
        (t : ℚ),
      3 ≤ (series.filterMap id).length →
      (kendalltau ((List.range (series.filterMap id).length).map (fun i : ℕ => (i : ℚ)))
          (series.filterMap id)).1 = some t →
      ((0 < t → (mann_kendall_trend kendalltau series).trend_direction = "increasing") ∧
       (t < 0 → (mann_kendall_trend kendalltau series).trend_direction = "decreasing") ∧
       (t = 0 → (mann_kendall_trend kendalltau series).trend_direction = "no_trend"))) := by
  refine ⟨?_, ?_, ?_, ?_, ?_⟩
  · intro kendalltau series h
    simp only [mann_kendall_trend]
    rw [if_pos h]
  · intro kendalltau
    simp [mann_kendall_trend]
  · intro linregress years values h
    simp only [linear_regression_trend, List.length_map] at h ⊢
    rw [if_pos (by simpa using h)]
  · intro linregress
    simp [linear_regression_trend]
  · intro kendalltau series t h3 htau
    simp only [mann_kendall_trend]
    rw [if_neg (by omega), htau]
    refine ⟨fun h0 => ?_, fun h0 => ?_, fun h0 => ?_⟩
    · simp [h0]
    · have hnp : ¬ (0 < t) := by linarith
      simp [hnp, h0]
    · subst h0
      simp

/-- Witness for C6: two valid points give the insufficient-data state; a
collaborator returning `tau = 1/2` on three valid points gives direction
`increasing`; two valid pairs give the all-undefined regression record. -/
theorem C6_witness :
    (([some 1, some 2] : List (Option ℚ)).filterMap id).length < 3 ∧
    mann_kendall_trend (fun _ _ => (some (1 / 2), some (1 / 100))) [some 1, some 2] =
      ⟨none, none, "insufficient_data"⟩ ∧
    (mann_kendall_trend (fun _ _ => (some (1 / 2), some (1 / 100)))
        [some 1, none, some 2, some 3]).trend_direction = "increasing" ∧
    linear_regression_trend (fun _ _ => ⟨1, 2, 3, 4⟩) [1990, 1991] [some 1, some 2] =
      ⟨none, none, none, none, none⟩ :=
  ⟨by decide,
   C6_trend_guards.1 _ _ (by decide),
   ((C6_trend_guards.2.2.2.2 (fun _ _ => (some (1 / 2), some (1 / 100)))
      [some 1, none, some 2, some 3] (1 / 2) (by decide) rfl).1 (by norm_num)),
   C6_trend_guards.2.2.1 _ _ _ (by decide)⟩

/-- Claim C7 (counterexample): with reference rows `1` and `5/4` (mean
`9/8`) the code stores the difference rounded half-even to two decimals,
not the exact difference the claim states. -/
theorem C7_counterexample :
    anomaly_column [(1970, some 1), (1971, some (5 / 4)), (2000, some 2)] ≠
      anomaly_column_claim [(1970, some 1), (1971, some (5 / 4)), (2000, some 2)] := by
  with_unfolding_all decide

/-- Claim C7 (amended): when the reference window (years at most 1980 with
a defined annual mean) selects no value the anomaly is undefined for every
year; otherwise each year's anomaly is the annual mean minus the reference
mean, rounded half-even to two decimals, and undefined for years whose
annual mean is undefined. -/
theorem C7_anomaly_reference (annual : List AnnualCell) :
    ((annual.filter (fun r => decide (r.1 ≤ 1980))).filterMap (fun r => r.2) = [] →
      anomaly_column annual = annual.map (fun _ => none)) ∧
    (∀ ref, ref = (annual.filter (fun r => decide (r.1 ≤ 1980))).filterMap (fun r => r.2) →
      ref ≠ [] →
      anomaly_column annual =
        annual.map (fun r => r.2.map (fun t => roundTo (t - ref.sum / (ref.length : ℚ)) 2))) := by
  constructor
  · intro h
    have hmean : anomaly_baseline_mean annual = none := by
      simp only [anomaly_baseline_mean, h]
      simp
    simp only [anomaly_column, hmean]
  · intro ref href hne
    have hmean : anomaly_baseline_mean annual = some (ref.sum / (ref.length : ℚ)) := by
      simp only [anomaly_baseline_mean, ← href]
      rw [if_neg (by simpa using List.length_pos.mpr hne |>.ne')]
    simp only [anomaly_column, hmean]
    apply List.map_congr_left
    intro r _
    cases r.2 <;> simp

/-- Witness for C7: an empty reference window makes the only year's anomaly
undefined; the nonempty window of the counterexample rows gives the rounded
differences. -/
theorem C7_witness :
    (([((1990 : ℤ), some (1 : ℚ))].filter (fun r => decide (r.1 ≤ 1980))).filterMap
        (fun r => r.2) = [] ∧
      anomaly_column [((1990 : ℤ), some (1 : ℚ))] =
        [((1990 : ℤ), some (1 : ℚ))].map (fun _ => none)) ∧
    anomaly_column [(1970, some 1), (1971, some (5 / 4)), (2000, some 2)] =
      [((1970 : ℤ), some (1 : ℚ)), (1971, some (5 / 4)), (2000, some 2)].map
        (fun r => r.2.map (fun t => roundTo
          (t - ((([((1970 : ℤ), some (1 : ℚ)), (1971, some (5 / 4)), (2000, some 2)].filter
              (fun r => decide (r.1 ≤ 1980))).filterMap (fun r => r.2)).sum /
            ((([((1970 : ℤ), some (1 : ℚ)), (1971, some (5 / 4)), (2000, some 2)].filter
              (fun r => decide (r.1 ≤ 1980))).filterMap (fun r => r.2)).length : ℚ))) 2)) :=
  ⟨⟨by with_unfolding_all decide,
    (C7_anomaly_reference [((1990 : ℤ), some (1 : ℚ))]).1 (by with_unfolding_all decide)⟩,
   (C7_anomaly_reference _).2 _ rfl (by with_unfolding_all decide)⟩

/-- Claim C8 (counterexample): `first_hot_day` and `last_hot_day` are
numeric columns of the annual table, yet they are absent from the
hand-listed `numeric_cols` that the decadal aggregation averages, so the
decadal table carries no mean for them and the claim's universal over
"each numeric annual column" fails at these two columns. -/
theorem C8_counterexample :
    "first_hot_day" ∈ annual_numeric_columns ∧ "first_hot_day" ∉ numeric_cols ∧
    "last_hot_day" ∈ annual_numeric_columns ∧ "last_hot_day" ∉ numeric_cols := by
  decide

/-- Claim C8 (amended): the decadal aggregation averages exactly the
hand-listed `numeric_cols` — a subset of the numeric annual columns that
contains `su30` but omits `first_hot_day` and `last_hot_day`; a year
belongs to the decade `year // 10 * 10` (for a decade boundary `d` this is
exactly the years `d ≤ y < d + 10`), each aggregated column's per-decade
value is the mean of its non-missing cells rounded once at this stage, and
the decade-2000 mean of `su30` values `1..10` over years `2000..2009` is
`5.5`. -/
theorem C8_decadal_aggregation :
    (∀ c ∈ numeric_cols, c ∈ annual_numeric_columns) ∧
    "su30" ∈ numeric_cols ∧
    "first_hot_day" ∉ numeric_cols ∧
    "last_hot_day" ∉ numeric_cols ∧
    (∀ y d : ℤ, d % 10 = 0 → (decade_of y = d ↔ d ≤ y ∧ y < d + 10)) ∧
    decadal_mean
        [(2000, some 1), (2001, some 2), (2002, some 3), (2003, some 4), (2004, some 5),
          (2005, some 6), (2006, some 7), (2007, some 8), (2008, some 9), (2009, some 10)]
        2000 = some (11 / 2) := by
  refine ⟨by decide, by decide, by decide, by decide, ?_, ?_⟩
  · intro y d hd
    rw [decade_of, Int.fdiv_eq_ediv ]
    · omega
    · norm_num
  · with_unfolding_all decide

/-- Witness for C8: the grouping characterization applied at year 2009 and
decade 2000, and the column-subset part applied at `su30`. -/
theorem C8_witness :
    ((2000 : ℤ) % 10 = 0) ∧
    (decade_of 2009 = 2000 ↔ (2000 : ℤ) ≤ 2009 ∧ (2009 : ℤ) < 2000 + 10) ∧
    "su30" ∈ annual_numeric_columns :=
  ⟨by decide, C8_decadal_aggregation.2.2.2.2.1 2009 2000 (by decide),
   C8_decadal_aggregation.1 "su30" (by decide)⟩

/-- Claim C10: when at least one day is hot (`temp_max ≥ 30`) the season
length is `last_hot_day - first_hot_day` with no `+1`; a year with exactly
one hot day reports length `0`, the same value as a year with no hot day,
where first and last are additionally undefined. -/
theorem C10_hot_season_length (year_df : List Row) :
    (∀ f l, (hot_days_doys year_df).min? = some f → (hot_days_doys year_df).max? = some l →
      hot_season year_df = (some f, some l, l - f)) ∧
    (∀ d, hot_days_doys year_df = [d] → hot_season year_df = (some d, some d, 0)) ∧
    (hot_days_doys year_df = [] → hot_season year_df = (none, none, 0)) := by
  refine ⟨fun f l hf hl => ?_, fun d hd => ?_, fun h => ?_⟩
  · rw [hot_season, hf, hl]
  · rw [hot_season, hd]
    simp [List.min?, List.max?, Option.bind]
  · rw [hot_season, h]
    simp [List.min?, List.max?]

/-- Witness for C10: a year with hot days on day-of-year 40 and 100 has
season length 60; a single hot day gives 0; no hot day gives 0 with
undefined endpoints. -/
theorem C10_witness :
    hot_season [(⟨2000, 40, some 35, none, none, none⟩ : Row),
        ⟨2000, 100, some 31, none, none, none⟩, ⟨2000, 200, some 10, none, none, none⟩] =
      (some 40, some 100, 60) ∧
    hot_season [(⟨2000, 40, some 35, none, none, none⟩ : Row)] = (some 40, some 40, 0) ∧
    hot_season [(⟨2000, 40, some 10, none, none, none⟩ : Row)] = (none, none, 0) :=
  ⟨(C10_hot_season_length _).1 40 100 (by with_unfolding_all decide)
      (by with_unfolding_all decide),
   (C10_hot_season_length _).2.1 40 (by with_unfolding_all decide),
   (C10_hot_season_length _).2.2 (by with_unfolding_all decide)⟩

end ClimaPinda
